import Mathlib

/-!
Verification of the authentication and session-resolution core of the
google_workspace_mcp server.  The Python sources are shallowly embedded:
each relevant Python function becomes a Lean function over explicit inputs,
with Python truthiness, dictionary lookup and exception handling made
explicit.  Components of the repository whose source files are not part of
the snapshot (the OAuth 2.1 session store, the WorkspaceAccessToken record
type) are modelled from the specification and are marked as such in their
doc comments.
-/

/-- Python truthiness of an optional string value: None and the empty
string are falsy, every other string is truthy. -/
def pyTruthy : Option String → Bool
  | none => false
  | some s => !(s == "")

/-- Lookup in a Python dict of string values, as `d.get(k)`: returns the
value when the key is present, otherwise None. -/
def dictGet (d : List (String × String)) (k : String) : Option String :=
  (d.find? (fun p => p.1 == k)).map (fun p => p.2)

/-- Lookup in a Python dict whose values may themselves be None, as
`d.get(k)`: a missing key and a stored None both come back as None. -/
def claimsGet (d : List (String × Option String)) (k : String) : Option String :=
  match d.find? (fun p => p.1 == k) with
  | some p => p.2
  | none => none

/-- Embedding of a substring test from the start of a string, used for the
`token.startswith(...)` checks of the source. -/
def strStartsWith (s p : String) : Bool :=
  p.data.isPrefixOf s.data

/-- Embedding of `s[n:]` for ASCII header strings. -/
def strDrop (s : String) (n : Nat) : String :=
  ⟨s.data.drop n⟩

/-- Embedding of `s[:n]` for ASCII token strings. -/
def strTake (s : String) (n : Nat) : String :=
  ⟨s.data.take n⟩

/-- Leading and trailing whitespace removal, as performed by the Python
int constructor before parsing. -/
def pyStripChars (s : String) : List Char :=
  ((s.data.dropWhile Char.isWhitespace).reverse.dropWhile Char.isWhitespace).reverse

/-- Accumulate a decimal digit string; fails on the first non-digit. -/
def parseDigitsAux : List Char → Nat → Option Nat
  | [], acc => some acc
  | c :: cs, acc =>
      if c.isDigit then parseDigitsAux cs (acc * 10 + (c.toNat - 48)) else none

/-- Embedding of the Python `int(raw)` conversion on strings: optional
surrounding whitespace, an optional sign, then a non-empty run of decimal
digits; anything else raises ValueError, modelled as None. -/
def pyParseInt (s : String) : Option Int :=
  match pyStripChars s with
  | [] => none
  | c :: cs =>
      if c == '-' then
        match cs with
        | [] => none
        | _ => (parseDigitsAux cs 0).map (fun n => -(n : Int))
      else if c == '+' then
        match cs with
        | [] => none
        | _ => (parseDigitsAux cs 0).map (fun n => (n : Int))
      else (parseDigitsAux (c :: cs) 0).map (fun n => (n : Int))

/-- Default session lifetime in seconds (auth/external_oauth_provider.py). -/
def _DEFAULT_SESSION_TIME : Int := 3600

/-- Maximum session lifetime in seconds (auth/external_oauth_provider.py). -/
def _MAX_SESSION_TIME : Int := 86400

/-- Embedding of get_session_time from auth/external_oauth_provider.py.
The environment read `os.getenv("SESSION_TIME", "")` is passed in as the
string argument; the lru_cache decorator makes the Python function a pure
function of that one read, which the embedding reflects directly. -/
def get_session_time (raw : String) : Int :=
  if raw == "" then _DEFAULT_SESSION_TIME
  else
    match pyParseInt raw with
    | none => _DEFAULT_SESSION_TIME
    | some value => max 1 (min value _MAX_SESSION_TIME)

/-- Modelled from the spec: the WorkspaceAccessToken record of the missing
auth/oauth_types.py module, section 3 of the specification.  The session
id field defaults to the synthesized key derived from the token text, as
the middleware passes explicitly when wrapping a base token. -/
structure WorkspaceAccessToken where
  token : String
  clientId : String
  scopes : List String
  sessionId : String
  expiresAt : Int
  claims : List (String × Option String)
  sub : Option String
  email : Option String
deriving DecidableEq, Repr

/-- The base AccessToken shape returned by the platform GoogleProvider, as
seen through the getattr probes of the middleware: each probe yields the
attribute value or None. -/
structure BaseAccessToken where
  email : Option String
  hasClaims : Bool
  claims : List (String × Option String)
  clientId : Option String
  scopes : Option (List String)
  expiresAt : Option Int
  sub : Option String
deriving DecidableEq, Repr

/-- A platform-validated token already attached to the request by the
framework, as seen through the getattr and hasattr probes of step one of
the middleware chain. -/
structure PlatformToken where
  email : Option String
  hasClaims : Bool
  claims : List (String × Option String)
deriving DecidableEq, Repr

/-- Modelled from the spec: a record of the missing
auth/oauth21_session_store.py Session Store, section 4.2 of the
specification. -/
structure SessionRecord where
  sessionKey : String
  userEmail : String
  mcpSessionId : Option String
deriving DecidableEq, Repr

/-- Modelled from the spec: the Session Store itself, a keyed mapping from
session identifiers to identity bindings. -/
structure SessionStore where
  records : List SessionRecord
deriving DecidableEq, Repr

/-- Modelled from the spec: store_session upserts a record, overwriting
any prior record under the same key. -/
def storeSession (s : SessionStore) (r : SessionRecord) : SessionStore :=
  if s.records.any (fun q => q.sessionKey == r.sessionKey) then
    ⟨s.records.map (fun q => if q.sessionKey == r.sessionKey then r else q)⟩
  else ⟨s.records ++ [r]⟩

/-- Modelled from the spec: has_session of the missing session store. -/
def hasSession (s : SessionStore) (email : String) : Bool :=
  s.records.any (fun r => r.userEmail == email)

/-- Modelled from the spec: get_single_user_email returns the user email
iff exactly one session currently exists, and nothing otherwise. -/
def getSingleUserEmail (s : SessionStore) : Option String :=
  match s.records with
  | [r] => some r.userEmail
  | _ => none

/-- Modelled from the spec: get_user_by_mcp_session binds a transport-level
session identifier to a previously authenticated user. -/
def getUserByMcpSession (s : SessionStore) (sid : String) : Option String :=
  (s.records.find? (fun r => r.mcpSessionId == some sid)).map (fun r => r.userEmail)

/-- Modelled from the spec: ensure_session_from_access_token of the missing
session store persists the verified token into the store under the
synthesized session key, bound to the transport session id if one exists.
Per the specification invariant a token without a non-empty email is never
persisted. -/
def ensureSessionFromAccessToken (s : SessionStore) (tok : WorkspaceAccessToken)
    (userEmail : Option String) (mcpSid : Option String) : SessionStore :=
  match userEmail with
  | some e => if e == "" then s else storeSession s ⟨tok.sessionId, e, mcpSid⟩
  | none => s

/-- Outcome of the userinfo endpoint call made inside verify_token: the
call can raise, return None, or return a JSON object. -/
inductive UserinfoOutcome where
  | raises : UserinfoOutcome
  | returns : Option (List (String × String)) → UserinfoOutcome
deriving DecidableEq, Repr

/-- Outcome of a provider verify_token call as observed by the middleware:
it can raise, return None, return a fully-formed WorkspaceAccessToken, or
return a base platform AccessToken. -/
inductive VerifyOutcome where
  | raises : VerifyOutcome
  | noneResult : VerifyOutcome
  | workspaceTok : WorkspaceAccessToken → VerifyOutcome
  | baseTok : BaseAccessToken → VerifyOutcome
deriving DecidableEq, Repr

/-- Embedding of ExternalOAuthProvider.verify_token from
auth/external_oauth_provider.py.  For a ya29-shaped token the userinfo
endpoint is consulted; any exception there is caught and collapsed to
None, as is a response without a truthy email.  For every other token the
parent class implementation decides, passed in as an opaque outcome. -/
def externalVerifyToken (clientId : String) (requiredScopes : List String)
    (now sessionTime : Int) (token : String) (uo : UserinfoOutcome)
    (parent : VerifyOutcome) : VerifyOutcome :=
  if strStartsWith token "ya29." then
    match uo with
    | .raises => .noneResult
    | .returns none => .noneResult
    | .returns (some info) =>
        if info.isEmpty then .noneResult
        else
          match dictGet info "email" with
          | none => .noneResult
          | some e =>
              if e == "" then .noneResult
              else
                .workspaceTok
                  { token := token
                    clientId := clientId
                    scopes := requiredScopes
                    sessionId := "google_oauth_" ++ strTake token 8
                    expiresAt := now + sessionTime
                    claims := [("email", some e), ("sub", dictGet info "id")]
                    sub := dictGet info "id"
                    email := some e }
  else parent

/-- True when the userinfo outcome lacks a usable non-empty email: the
call raised, returned None, returned an empty object, or returned an
object whose email entry is missing or empty. -/
def userinfoLacksEmail (uo : UserinfoOutcome) : Bool :=
  match uo with
  | .raises => true
  | .returns none => true
  | .returns (some info) => info.isEmpty || !(pyTruthy (dictGet info "email"))

/-- The raw token object stored into request-scoped state: step one stores
the platform token unchanged, the bearer step stores a WorkspaceAccessToken. -/
inductive StoredToken where
  | platform : PlatformToken → StoredToken
  | workspace : WorkspaceAccessToken → StoredToken
deriving DecidableEq, Repr

/-- Request-scoped context state as written by set_state calls in
auth/auth_info_middleware.py; unset keys are None. -/
structure CtxState where
  authenticatedUserEmail : Option String := none
  authenticatedVia : Option String := none
  accessToken : Option StoredToken := none
  authProviderType : Option String := none
  tokenType : Option String := none
  userEmail : Option String := none
  username : Option String := none
deriving DecidableEq, Repr

/-- Result of probing a framework dependency inside a try block: the probe
can raise, or return a value that may itself be None. -/
inductive ProbeResult (α : Type) where
  | raises : ProbeResult α
  | ok : Option α → ProbeResult α
deriving DecidableEq, Repr

/-- All inputs that _process_request_for_auth reads: the framework token
probe, the HTTP header probe, the active auth provider behaviour on this
request token (None when get_auth_provider returns None), the transport
mode, the explicitly requested user, the session store, the transport
session id, and the clock and configured session lifetime. -/
structure RequestInputs where
  platformProbe : ProbeResult PlatformToken
  headersProbe : ProbeResult (List (String × String))
  authProvider : Option VerifyOutcome
  transportMode : String
  requestedUser : Option String
  sessions : SessionStore
  mcpSessionId : Option String
  now : Int
  sessionTime : Int
deriving DecidableEq, Repr

/-- The middleware resolution outcome: the final context state, the
session store after any write, and the authenticated_user and auth_via
local variables at the single exit point. -/
structure ResolutionOutcome where
  state : CtxState
  store : SessionStore
  authenticatedUser : Option String
  authVia : Option String
deriving DecidableEq, Repr

/-- Email extraction shared by the middleware steps: getattr the email
attribute, and when it is falsy fall back to the claims dict if present. -/
def extractEmail (emailAttr : Option String) (hasClaims : Bool)
    (claims : List (String × Option String)) : Option String :=
  if pyTruthy emailAttr then emailAttr
  else if hasClaims then claimsGet claims "email"
  else emailAttr

/-- Step one of the chain (auth_info_middleware.py lines 38 to 67): the
platform-validated token check.  An exception from get_access_token is
caught; a token with a truthy email resolves with source fastmcp_oauth. -/
def platformStep (probe : ProbeResult PlatformToken) :
    CtxState × Option String × Option String :=
  match probe with
  | .raises => (({} : CtxState), none, none)
  | .ok none => (({} : CtxState), none, none)
  | .ok (some t) =>
      let userEmail := extractEmail t.email t.hasClaims t.claims
      if pyTruthy userEmail then
        ({ authenticatedUserEmail := userEmail
           authenticatedVia := some "fastmcp_oauth"
           accessToken := some (.platform t) },
         userEmail, some "fastmcp_oauth")
      else (({} : CtxState), none, none)

/-- The wrap of a base platform AccessToken into the richer
WorkspaceAccessToken shape (auth_info_middleware.py lines 118 to 146):
Python or-defaults on client id, scopes, claims and sub, the session id
synthesized from the token text, and expiry defaulted from the configured
session lifetime when the provider supplied none. -/
def wrapBaseToken (tokenStr : String) (b : BaseAccessToken)
    (userEmail : Option String) (now sessionTime : Int) : WorkspaceAccessToken :=
  { token := tokenStr
    clientId :=
      match b.clientId with
      | some c => if c == "" then "google" else c
      | none => "google"
    scopes := match b.scopes with | some l => l | none => []
    sessionId := "google_oauth_" ++ strTake tokenStr 8
    expiresAt := match b.expiresAt with | some e => e | none => now + sessionTime
    claims := if b.hasClaims then b.claims else []
    sub := if pyTruthy b.sub then b.sub else userEmail
    email := userEmail }

/-- The tail of the bearer branch common to both token shapes
(auth_info_middleware.py lines 148 to 181): store the token in state,
persist the session binding, and write the bearer_token resolution state.
The authenticated_user local receives the extracted email even when it is
falsy, exactly as the source assigns it without a truthiness check. -/
def finishBearer (sessions : SessionStore) (mcpSessionId : Option String)
    (st : CtxState) (tok : WorkspaceAccessToken) (userEmail : Option String) :
    CtxState × SessionStore × Option String × Option String :=
  ({ st with
      accessToken := some (.workspace tok)
      authProviderType := some "GoogleProvider"
      tokenType := some "google_oauth"
      userEmail := userEmail
      username := userEmail
      authenticatedUserEmail := userEmail
      authenticatedVia := some "bearer_token" },
   ensureSessionFromAccessToken sessions tok userEmail mcpSessionId,
   userEmail, some "bearer_token")

/-- Step two of the chain (auth_info_middleware.py lines 70 to 208): the
Authorization bearer header check.  Exceptions from the header probe or
from verify_token are caught and leave the incoming state untouched; a
non-Bearer header, a non-ya29 token, a missing provider and a failed
verification all fall through without writing any resolution state. -/
def bearerStep (headersProbe : ProbeResult (List (String × String)))
    (authProvider : Option VerifyOutcome) (now sessionTime : Int)
    (mcpSessionId : Option String) (sessions : SessionStore)
    (st : CtxState) (u v : Option String) :
    CtxState × SessionStore × Option String × Option String :=
  match headersProbe with
  | .raises => (st, sessions, u, v)
  | .ok none => (st, sessions, u, v)
  | .ok (some headers) =>
      if headers.isEmpty then (st, sessions, u, v)
      else
        let authHeader := (dictGet headers "authorization").getD ""
        if strStartsWith authHeader "Bearer " then
          let tokenStr := strDrop authHeader 7
          if strStartsWith tokenStr "ya29." then
            match authProvider with
            | none => (st, sessions, u, v)
            | some vres =>
                match vres with
                | .raises => (st, sessions, u, v)
                | .noneResult => (st, sessions, u, v)
                | .workspaceTok t =>
                    finishBearer sessions mcpSessionId st t
                      (extractEmail t.email true t.claims)
                | .baseTok b =>
                    let userEmail := extractEmail b.email b.hasClaims b.claims
                    finishBearer sessions mcpSessionId st
                      (wrapBaseToken tokenStr b userEmail now sessionTime) userEmail
          else (st, sessions, u, v)
        else (st, sessions, u, v)

/-- Step three of the chain (auth_info_middleware.py lines 222 to 288),
reached on stdio transport when no earlier step produced a truthy user:
an explicitly requested user with a stored session resolves with source
stdio_session; otherwise the single-session convenience fallback applies
when the store holds exactly one session. -/
def stdioStep (requestedUser : Option String) (store : SessionStore)
    (st : CtxState) (u v : Option String) :
    CtxState × Option String × Option String :=
  let afterRequested :=
    match requestedUser with
    | some ru =>
        if ru == "" then (st, u, v)
        else if hasSession store ru then
          ({ st with
              authenticatedUserEmail := some ru
              authenticatedVia := some "stdio_session"
              authProviderType := some "oauth21_stdio" },
           some ru, some "stdio_session")
        else (st, u, v)
    | none => (st, u, v)
  if pyTruthy afterRequested.2.1 then afterRequested
  else
    match getSingleUserEmail store with
    | some su =>
        if su == "" then afterRequested
        else
          ({ afterRequested.1 with
              authenticatedUserEmail := some su
              authenticatedVia := some "stdio_single_session"
              authProviderType := some "oauth21_stdio"
              userEmail := some su
              username := some su },
           some su, some "stdio_single_session")
    | none => afterRequested

/-- Step four of the chain (auth_info_middleware.py lines 290 to 317):
binding of the transport-level MCP session id to a previously
authenticated user. -/
def mcpBindingStep (mcpSessionId : Option String) (store : SessionStore)
    (st : CtxState) (u v : Option String) :
    CtxState × Option String × Option String :=
  match mcpSessionId with
  | none => (st, u, v)
  | some sid =>
      if sid == "" then (st, u, v)
      else
        match getUserByMcpSession store sid with
        | some bu =>
            if bu == "" then (st, u, v)
            else
              ({ st with
                  authenticatedUserEmail := some bu
                  authenticatedVia := some "mcp_session_binding"
                  authProviderType := some "oauth21_session" },
               some bu, some "mcp_session_binding")
        | none => (st, u, v)

/-- Embedding of AuthInfoMiddleware._process_request_for_auth from
auth/auth_info_middleware.py: the strict precedence chain over the four
credential sources, guarded at each boundary by the truthiness of the
authenticated_user local, threading the session store through the one
step that writes to it. -/
def processRequestForAuth (inp : RequestInputs) : ResolutionOutcome :=
  let s1 := platformStep inp.platformProbe
  let s2 :=
    if pyTruthy s1.2.1 then (s1.1, inp.sessions, s1.2.1, s1.2.2)
    else
      bearerStep inp.headersProbe inp.authProvider inp.now inp.sessionTime
        inp.mcpSessionId inp.sessions s1.1 s1.2.1 s1.2.2
  let s3 :=
    if pyTruthy s2.2.2.1 then (s2.1, s2.2.2.1, s2.2.2.2)
    else if inp.transportMode == "stdio" then
      stdioStep inp.requestedUser s2.2.1 s2.1 s2.2.2.1 s2.2.2.2
    else (s2.1, s2.2.2.1, s2.2.2.2)
  let s4 :=
    if pyTruthy s3.2.1 then s3
    else mcpBindingStep inp.mcpSessionId s2.2.1 s3.1 s3.2.1 s3.2.2
  { state := s4.1
    store := s2.2.1
    authenticatedUser := s4.2.1
    authVia := s4.2.2 }

instance : DecidableEq (Except String Unit) := fun a b =>
  match a, b with
  | .ok _, .ok _ => isTrue rfl
  | .error x, .error y =>
      if h : x = y then isTrue (by rw [h])
      else isFalse (fun hc => by cases hc; exact h rfl)
  | .ok _, .error _ => isFalse (fun hc => by cases hc)
  | .error _, .ok _ => isFalse (fun hc => by cases hc)

/-- Inputs read by configure_server_for_http in core/server.py: the
transport mode, whether the centralized OAuth configuration reports
OAuth 2.1 enabled and credentials configured, whether the external
provider mode is selected, and the outcome of the provider and storage
initialization body, which can raise. -/
structure ConfigureInputs where
  transportMode : String
  oauth21Enabled : Bool
  isConfigured : Bool
  isExternal : Bool
  bodyInit : Except String Unit
deriving DecidableEq, Repr

/-- Observable effects of configure_server_for_http: whether protocol
level auth was installed on the server, whether an auth provider object
was published for the middleware, whether the legacy callback route was
registered, and whether the not-configured warning was emitted. -/
structure ConfigureResult where
  protocolAuthEnabled : Bool := false
  authProviderPresent : Bool := false
  legacyCallbackRegistered : Bool := false
  warnedNotConfigured : Bool := false
deriving DecidableEq, Repr

/-- Embedding of configure_server_for_http from core/server.py: a
non-HTTP transport is a no-op; with OAuth 2.1 enabled but credentials not
configured the function warns and returns; with OAuth 2.1 enabled and
configured the initialization body runs and any exception it raises is
logged and re-raised; with OAuth 2.1 disabled the legacy fallback runs. -/
def configure_server_for_http (i : ConfigureInputs) : Except String ConfigureResult :=
  if !(i.transportMode == "streamable-http") then .ok {}
  else if i.oauth21Enabled then
    if !i.isConfigured then .ok { warnedNotConfigured := true }
    else
      match i.bodyInit with
      | .error e => .error e
      | .ok _ => .ok { protocolAuthEnabled := true, authProviderPresent := true }
  else .ok { legacyCallbackRegistered := true }

/-- Formalization of the claim wording for C8: OAuth 2.1 is enabled but
the provider is disabled or misconfigured at configuration time, covering
both missing credentials and a provider initialization failure, which the
specification calls a misconfigured-provider configuration failure. -/
def oauth21ProviderMisconfigured (i : ConfigureInputs) : Bool :=
  i.oauth21Enabled &&
    (!i.isConfigured ||
      (match i.bodyInit with
       | .error _ => true
       | .ok _ => false))

/-- True when a configuration run completed without raising. -/
def completesWithoutRaising (r : Except String ConfigureResult) : Bool :=
  match r with
  | .ok _ => true
  | .error _ => false

/-- A bearer step whose provider probe raised leaves everything untouched. -/
lemma bearerStep_raises_fallthrough (hp : ProbeResult (List (String × String)))
    (n t : Int) (sid : Option String) (s : SessionStore) (st : CtxState)
    (u v : Option String) :
    bearerStep hp (some VerifyOutcome.raises) n t sid s st u v = (st, s, u, v) := by
  unfold bearerStep
  cases hp with
  | raises => rfl
  | ok o =>
      cases o with
      | none => rfl
      | some headers => split <;> simp

/-- A bearer step whose provider verification returned None leaves
everything untouched. -/
lemma bearerStep_none_fallthrough (hp : ProbeResult (List (String × String)))
    (n t : Int) (sid : Option String) (s : SessionStore) (st : CtxState)
    (u v : Option String) :
    bearerStep hp (some VerifyOutcome.noneResult) n t sid s st u v = (st, s, u, v) := by
  unfold bearerStep
  cases hp with
  | raises => rfl
  | ok o =>
      cases o with
      | none => rfl
      | some headers => split <;> simp

/-- A bearer step with no provider available leaves everything untouched. -/
lemma bearerStep_noProvider_fallthrough (hp : ProbeResult (List (String × String)))
    (n t : Int) (sid : Option String) (s : SessionStore) (st : CtxState)
    (u v : Option String) :
    bearerStep hp none n t sid s st u v = (st, s, u, v) := by
  unfold bearerStep
  cases hp with
  | raises => rfl
  | ok o =>
      cases o with
      | none => rfl
      | some headers => split <;> simp

/-- The stdio step either keeps the incoming source tag or produces one of
the two stdio tags. -/
lemma stdioStep_via_mem (ru : Option String) (store : SessionStore)
    (st : CtxState) (u v : Option String) :
    (stdioStep ru store st u v).2.2 = v ∨
    (stdioStep ru store st u v).2.2 = some "stdio_session" ∨
    (stdioStep ru store st u v).2.2 = some "stdio_single_session" := by
  cases ru with
  | none =>
      unfold stdioStep
      cases hpy : pyTruthy u with
      | true => simp [hpy]
      | false =>
          cases hg : getSingleUserEmail store with
          | none => simp [hpy, hg]
          | some su => by_cases hsu : su = "" <;> simp [hpy, hg, hsu]
  | some ru0 =>
      unfold stdioStep
      by_cases hru0 : ru0 = ""
      · subst hru0
        cases hpy : pyTruthy u with
        | true => simp [hpy]
        | false =>
            cases hg : getSingleUserEmail store with
            | none => simp [hpy, hg]
            | some su => by_cases hsu : su = "" <;> simp [hpy, hg, hsu]
      · by_cases hhs : hasSession store ru0
        · simp [hru0, hhs, pyTruthy]
        · cases hpy : pyTruthy u with
          | true => simp [hru0, hhs, hpy]
          | false =>
              cases hg : getSingleUserEmail store with
              | none => simp [hru0, hhs, hpy, hg]
              | some su => by_cases hsu : su = "" <;> simp [hru0, hhs, hpy, hg, hsu]

/-- The session-binding step either keeps the incoming source tag or
produces the mcp_session_binding tag. -/
lemma mcpBindingStep_via_mem (sid : Option String) (store : SessionStore)
    (st : CtxState) (u v : Option String) :
    (mcpBindingStep sid store st u v).2.2 = v ∨
    (mcpBindingStep sid store st u v).2.2 = some "mcp_session_binding" := by
  cases sid with
  | none => simp [mcpBindingStep]
  | some sid0 =>
      by_cases hs0 : sid0 = ""
      · simp [mcpBindingStep, hs0]
      · cases hg : getUserByMcpSession store sid0 with
        | none => simp [mcpBindingStep, hs0, hg]
        | some bu => by_cases hbu : bu = "" <;> simp [mcpBindingStep, hs0, hg, hbu]

/-- The platform step either finds nothing or resolves with the
fastmcp_oauth tag. -/
lemma platformStep_via_mem (p : ProbeResult PlatformToken) :
    (platformStep p).2.2 = none ∨ (platformStep p).2.2 = some "fastmcp_oauth" := by
  cases p with
  | raises => simp [platformStep]
  | ok o =>
      cases o with
      | none => simp [platformStep]
      | some t =>
          cases hpy : pyTruthy (extractEmail t.email t.hasClaims t.claims) <;>
            simp [platformStep, hpy]

/-- State written by the stdio step: the authenticated_via key is the
incoming one or one of the two stdio tags. -/
lemma stdioStep_state_via_mem (ru : Option String) (store : SessionStore)
    (st : CtxState) (u v : Option String) :
    (stdioStep ru store st u v).1.authenticatedVia = st.authenticatedVia ∨
    (stdioStep ru store st u v).1.authenticatedVia = some "stdio_session" ∨
    (stdioStep ru store st u v).1.authenticatedVia = some "stdio_single_session" := by
  cases ru with
  | none =>
      unfold stdioStep
      cases hpy : pyTruthy u with
      | true => simp [hpy]
      | false =>
          cases hg : getSingleUserEmail store with
          | none => simp [hpy, hg]
          | some su => by_cases hsu : su = "" <;> simp [hpy, hg, hsu]
  | some ru0 =>
      unfold stdioStep
      by_cases hru0 : ru0 = ""
      · subst hru0
        cases hpy : pyTruthy u with
        | true => simp [hpy]
        | false =>
            cases hg : getSingleUserEmail store with
            | none => simp [hpy, hg]
            | some su => by_cases hsu : su = "" <;> simp [hpy, hg, hsu]
      · by_cases hhs : hasSession store ru0
        · simp [hru0, hhs, pyTruthy]
        · cases hpy : pyTruthy u with
          | true => simp [hru0, hhs, hpy]
          | false =>
              cases hg : getSingleUserEmail store with
              | none => simp [hru0, hhs, hpy, hg]
              | some su => by_cases hsu : su = "" <;> simp [hru0, hhs, hpy, hg, hsu]

/-- State written by the session-binding step: the authenticated_via key
is the incoming one or the mcp_session_binding tag. -/
lemma mcpBindingStep_state_via_mem (sid : Option String) (store : SessionStore)
    (st : CtxState) (u v : Option String) :
    (mcpBindingStep sid store st u v).1.authenticatedVia = st.authenticatedVia ∨
    (mcpBindingStep sid store st u v).1.authenticatedVia = some "mcp_session_binding" := by
  cases sid with
  | none => simp [mcpBindingStep]
  | some sid0 =>
      by_cases hs0 : sid0 = ""
      · simp [mcpBindingStep, hs0]
      · cases hg : getUserByMcpSession store sid0 with
        | none => simp [mcpBindingStep, hs0, hg]
        | some bu => by_cases hbu : bu = "" <;> simp [mcpBindingStep, hs0, hg, hbu]

/-- A platform step that did not produce a truthy user found nothing at
all: empty state, no user, no source tag. -/
lemma platformStep_of_not_truthy (p : ProbeResult PlatformToken)
    (h : pyTruthy (platformStep p).2.1 = false) :
    platformStep p = (({} : CtxState), none, none) := by
  cases p with
  | raises => rfl
  | ok o =>
      cases o with
      | none => rfl
      | some t =>
          by_cases hpy : pyTruthy (extractEmail t.email t.hasClaims t.claims) = true
          · exfalso
            rw [show platformStep (ProbeResult.ok (some t)) =
                ({ authenticatedUserEmail := extractEmail t.email t.hasClaims t.claims
                   authenticatedVia := some "fastmcp_oauth"
                   accessToken := some (StoredToken.platform t) },
                 extractEmail t.email t.hasClaims t.claims, some "fastmcp_oauth") from by
              simp [platformStep, hpy]] at h
            simp at h
            rw [hpy] at h
            cases h
          · simp [platformStep, hpy]

/-- Truthiness of None. -/
@[simp] lemma pyTruthy_none : pyTruthy none = false := rfl

/-- Truthiness of a present string value. -/
@[simp] lemma pyTruthy_some (s : String) : pyTruthy (some s) = !(s == "") := rfl

/-- State written by the platform step: the authenticated_via key is
unset or the fastmcp_oauth tag. -/
lemma platformStep_state_via_mem (p : ProbeResult PlatformToken) :
    (platformStep p).1.authenticatedVia = none ∨
    (platformStep p).1.authenticatedVia = some "fastmcp_oauth" := by
  cases p with
  | raises => simp [platformStep]
  | ok o =>
      cases o with
      | none => simp [platformStep]
      | some t =>
          cases hpy : pyTruthy (extractEmail t.email t.hasClaims t.claims) <;>
            simp [platformStep, hpy]

/-- When the bearer step finds nothing on the given request, the whole
resolution chain can never end with the bearer_token source, neither in
the returned resolution nor in the written context state. -/
lemma process_resolution_ne_bearer (inp : RequestInputs)
    (hb : ∀ st u v,
      bearerStep inp.headersProbe inp.authProvider inp.now inp.sessionTime
        inp.mcpSessionId inp.sessions st u v = (st, inp.sessions, u, v)) :
    (processRequestForAuth inp).authVia ≠ some "bearer_token" ∧
    (processRequestForAuth inp).state.authenticatedVia ≠ some "bearer_token" := by
  simp only [processRequestForAuth, hb]
  cases hpt : pyTruthy (platformStep inp.platformProbe).2.1 with
  | true =>
      rcases platformStep_via_mem inp.platformProbe with h | h <;>
        rcases platformStep_state_via_mem inp.platformProbe with h2 | h2 <;>
          simp [hpt, h, h2]
  | false =>
      rw [platformStep_of_not_truthy inp.platformProbe hpt]
      by_cases htm : (inp.transportMode == "stdio") = true
      · simp only [htm, pyTruthy_none, Bool.false_eq_true, if_false, if_true]
        rcases stdioStep_via_mem inp.requestedUser inp.sessions ({} : CtxState)
            none none with h | h | h <;>
          rcases stdioStep_state_via_mem inp.requestedUser inp.sessions
              ({} : CtxState) none none with h2 | h2 | h2 <;>
            rcases mcpBindingStep_via_mem inp.mcpSessionId inp.sessions
                (stdioStep inp.requestedUser inp.sessions ({} : CtxState)
                  none none).1
                (stdioStep inp.requestedUser inp.sessions ({} : CtxState)
                  none none).2.1
                (stdioStep inp.requestedUser inp.sessions ({} : CtxState)
                  none none).2.2 with h3 | h3 <;>
              rcases mcpBindingStep_state_via_mem inp.mcpSessionId inp.sessions
                  (stdioStep inp.requestedUser inp.sessions ({} : CtxState)
                    none none).1
                  (stdioStep inp.requestedUser inp.sessions ({} : CtxState)
                    none none).2.1
                  (stdioStep inp.requestedUser inp.sessions ({} : CtxState)
                    none none).2.2 with h4 | h4 <;>
                by_cases hps : pyTruthy (stdioStep inp.requestedUser inp.sessions
                    ({} : CtxState) none none).2.1 = true <;>
                  simp_all
      · simp only [htm, pyTruthy_none, Bool.false_eq_true, if_false]
        rcases mcpBindingStep_via_mem inp.mcpSessionId inp.sessions
            ({} : CtxState) none none with h3 | h3 <;>
          rcases mcpBindingStep_state_via_mem inp.mcpSessionId inp.sessions
              ({} : CtxState) none none with h4 | h4 <;>
            simp_all

/-- A bearer step that saw no HTTP headers leaves everything untouched. -/
lemma bearerStep_okNone (ap : Option VerifyOutcome) (n t : Int)
    (sid : Option String) (s : SessionStore) (st : CtxState)
    (u v : Option String) :
    bearerStep (ProbeResult.ok none) ap n t sid s st u v = (st, s, u, v) := rfl

/-- Dropping the Bearer scheme from a header built over a token returns
the token itself. -/
lemma strDrop_bearer (token : String) : strDrop ("Bearer " ++ token) 7 = token := by
  cases token with
  | mk data => rfl

/-- A header built over a token always passes the Bearer scheme check. -/
lemma strStartsWith_bearer (token : String) :
    strStartsWith ("Bearer " ++ token) "Bearer " = true := by
  cases token with
  | mk data =>
      show List.isPrefixOf "Bearer ".data ("Bearer ".data ++ data) = true
      rw [List.isPrefixOf_iff_prefix]
      exact List.prefix_append _ _

/-- A successful email lookup implies the info object is non-empty. -/
lemma isEmpty_false_of_dictGet (info : List (String × String)) (k : String)
    (e : String) (h : dictGet info k = some e) : info.isEmpty = false := by
  cases info with
  | nil => simp [dictGet] at h
  | cons p t => rfl

/-- A store whose record list does not have exactly one element offers no
single-user email. -/
lemma getSingleUserEmail_of_ne_one (s : SessionStore)
    (h : s.records.length ≠ 1) : getSingleUserEmail s = none := by
  cases hr : s.records with
  | nil => simp [getSingleUserEmail, hr]
  | cons a t =>
      cases t with
      | nil => exfalso; apply h; rw [hr]; rfl
      | cons b t2 => simp [getSingleUserEmail, hr]

/-- C1: for every inbound call in which the framework already attached a
platform-validated access token carrying an email and an Authorization
bearer header is also present, resolution uses the platform token with
source fastmcp_oauth, and the bearer step assigns no identity: the store
is untouched and the stored token is the platform token itself. -/
theorem c1_platform_token_precedence (inp : RequestInputs) (t : PlatformToken)
    (hs : List (String × String)) (a : String)
    (hp : inp.platformProbe = ProbeResult.ok (some t))
    (he : pyTruthy (extractEmail t.email t.hasClaims t.claims) = true)
    (hh : inp.headersProbe = ProbeResult.ok (some hs))
    (ha : dictGet hs "authorization" = some a)
    (hbear : strStartsWith a "Bearer " = true) :
    (processRequestForAuth inp).authVia = some "fastmcp_oauth" ∧
    (processRequestForAuth inp).state.authenticatedVia = some "fastmcp_oauth" ∧
    (processRequestForAuth inp).authenticatedUser =
      extractEmail t.email t.hasClaims t.claims ∧
    (processRequestForAuth inp).store = inp.sessions ∧
    (processRequestForAuth inp).state.accessToken = some (StoredToken.platform t) := by
  simp [processRequestForAuth, platformStep, hp, he]

/-- Witness for C1 at a concrete request carrying both a platform token
and a bearer header. -/
theorem c1_platform_token_precedence_witness :
    (processRequestForAuth
      { platformProbe := ProbeResult.ok (some
          { email := some "u@example.com", hasClaims := false, claims := [] })
        headersProbe := ProbeResult.ok (some [("authorization", "Bearer ya29.zzz")])
        authProvider := some VerifyOutcome.raises
        transportMode := "stdio"
        requestedUser := none
        sessions := ⟨[]⟩
        mcpSessionId := none
        now := 0
        sessionTime := 3600 }).authVia = some "fastmcp_oauth" ∧
    (processRequestForAuth
      { platformProbe := ProbeResult.ok (some
          { email := some "u@example.com", hasClaims := false, claims := [] })
        headersProbe := ProbeResult.ok (some [("authorization", "Bearer ya29.zzz")])
        authProvider := some VerifyOutcome.raises
        transportMode := "stdio"
        requestedUser := none
        sessions := ⟨[]⟩
        mcpSessionId := none
        now := 0
        sessionTime := 3600 }).state.authenticatedVia = some "fastmcp_oauth" ∧
    (processRequestForAuth
      { platformProbe := ProbeResult.ok (some
          { email := some "u@example.com", hasClaims := false, claims := [] })
        headersProbe := ProbeResult.ok (some [("authorization", "Bearer ya29.zzz")])
        authProvider := some VerifyOutcome.raises
        transportMode := "stdio"
        requestedUser := none
        sessions := ⟨[]⟩
        mcpSessionId := none
        now := 0
        sessionTime := 3600 }).authenticatedUser = some "u@example.com" ∧
    (processRequestForAuth
      { platformProbe := ProbeResult.ok (some
          { email := some "u@example.com", hasClaims := false, claims := [] })
        headersProbe := ProbeResult.ok (some [("authorization", "Bearer ya29.zzz")])
        authProvider := some VerifyOutcome.raises
        transportMode := "stdio"
        requestedUser := none
        sessions := ⟨[]⟩
        mcpSessionId := none
        now := 0
        sessionTime := 3600 }).store = (⟨[]⟩ : SessionStore) ∧
    (processRequestForAuth
      { platformProbe := ProbeResult.ok (some
          { email := some "u@example.com", hasClaims := false, claims := [] })
        headersProbe := ProbeResult.ok (some [("authorization", "Bearer ya29.zzz")])
        authProvider := some VerifyOutcome.raises
        transportMode := "stdio"
        requestedUser := none
        sessions := ⟨[]⟩
        mcpSessionId := none
        now := 0
        sessionTime := 3600 }).state.accessToken = some (StoredToken.platform
          { email := some "u@example.com", hasClaims := false, claims := [] }) := by
  exact c1_platform_token_precedence
    { platformProbe := ProbeResult.ok (some
        { email := some "u@example.com", hasClaims := false, claims := [] })
      headersProbe := ProbeResult.ok (some [("authorization", "Bearer ya29.zzz")])
      authProvider := some VerifyOutcome.raises
      transportMode := "stdio"
      requestedUser := none
      sessions := ⟨[]⟩
      mcpSessionId := none
      now := 0
      sessionTime := 3600 }
    { email := some "u@example.com", hasClaims := false, claims := [] }
    [("authorization", "Bearer ya29.zzz")]
    "Bearer ya29.zzz"
    rfl (by decide) rfl rfl (by decide)

/-- A bearer header whose token does not have the ya29 shape makes the
bearer step fall through without touching anything. -/
lemma bearerStep_nonOpaque_fallthrough (hs : List (String × String)) (a : String)
    (ap : Option VerifyOutcome) (n t : Int) (sid : Option String)
    (s : SessionStore) (st : CtxState) (u v : Option String)
    (ha : dictGet hs "authorization" = some a)
    (hbear : strStartsWith a "Bearer " = true)
    (hnoya : strStartsWith (strDrop a 7) "ya29." = false) :
    bearerStep (ProbeResult.ok (some hs)) ap n t sid s st u v = (st, s, u, v) := by
  have hie : hs.isEmpty = false := by
    cases hs with
    | nil => simp [dictGet] at ha
    | cons p tl => rfl
  unfold bearerStep
  simp [hie, ha, hbear, hnoya]

/-- C2: a Bearer token without the provider-native ya29 shape, with no
platform-validated token resolving, never yields a resolution sourced
from the bearer step: no bearer_token tag appears in the outcome or the
written state, and the run is indistinguishable from one with no headers
at all, falling through to the transport-mode and session-binding
fallbacks. -/
theorem c2_unverified_jwt_fail_closed (inp : RequestInputs)
    (hs : List (String × String)) (a : String)
    (hplat : ∀ t, inp.platformProbe = ProbeResult.ok (some t) →
      pyTruthy (extractEmail t.email t.hasClaims t.claims) = false)
    (hh : inp.headersProbe = ProbeResult.ok (some hs))
    (ha : dictGet hs "authorization" = some a)
    (hbear : strStartsWith a "Bearer " = true)
    (hnoya : strStartsWith (strDrop a 7) "ya29." = false) :
    (processRequestForAuth inp).authVia ≠ some "bearer_token" ∧
    (processRequestForAuth inp).state.authenticatedVia ≠ some "bearer_token" ∧
    processRequestForAuth inp =
      processRequestForAuth { inp with headersProbe := ProbeResult.ok none } := by
  have hbfall : ∀ st u v,
      bearerStep inp.headersProbe inp.authProvider inp.now inp.sessionTime
        inp.mcpSessionId inp.sessions st u v = (st, inp.sessions, u, v) := by
    intro st u v
    rw [hh]
    exact bearerStep_nonOpaque_fallthrough hs a _ _ _ _ _ _ _ _ ha hbear hnoya
  obtain ⟨h1, h2⟩ := process_resolution_ne_bearer inp hbfall
  refine ⟨h1, h2, ?_⟩
  simp only [processRequestForAuth, hbfall, bearerStep_okNone]

/-- Witness for C2 at a concrete request presenting a non-opaque JWT,
with a provider that would even vouch for a token: the bearer step still
assigns nothing. -/
theorem c2_unverified_jwt_fail_closed_witness :
    (processRequestForAuth
      { platformProbe := ProbeResult.ok none
        headersProbe := ProbeResult.ok (some [("authorization", "Bearer eyJabc.def.ghi")])
        authProvider := some (VerifyOutcome.workspaceTok
          ⟨"eyJabc.def.ghi", "cid", [], "sid", 0, [], none, some "x@y.com"⟩)
        transportMode := "streamable-http"
        requestedUser := none
        sessions := ⟨[]⟩
        mcpSessionId := none
        now := 0
        sessionTime := 3600 }).authVia ≠ some "bearer_token" ∧
    (processRequestForAuth
      { platformProbe := ProbeResult.ok none
        headersProbe := ProbeResult.ok (some [("authorization", "Bearer eyJabc.def.ghi")])
        authProvider := some (VerifyOutcome.workspaceTok
          ⟨"eyJabc.def.ghi", "cid", [], "sid", 0, [], none, some "x@y.com"⟩)
        transportMode := "streamable-http"
        requestedUser := none
        sessions := ⟨[]⟩
        mcpSessionId := none
        now := 0
        sessionTime := 3600 }).state.authenticatedVia ≠ some "bearer_token" ∧
    processRequestForAuth
      { platformProbe := ProbeResult.ok none
        headersProbe := ProbeResult.ok (some [("authorization", "Bearer eyJabc.def.ghi")])
        authProvider := some (VerifyOutcome.workspaceTok
          ⟨"eyJabc.def.ghi", "cid", [], "sid", 0, [], none, some "x@y.com"⟩)
        transportMode := "streamable-http"
        requestedUser := none
        sessions := ⟨[]⟩
        mcpSessionId := none
        now := 0
        sessionTime := 3600 } =
    processRequestForAuth
      { platformProbe := ProbeResult.ok none
        headersProbe := ProbeResult.ok none
        authProvider := some (VerifyOutcome.workspaceTok
          ⟨"eyJabc.def.ghi", "cid", [], "sid", 0, [], none, some "x@y.com"⟩)
        transportMode := "streamable-http"
        requestedUser := none
        sessions := ⟨[]⟩
        mcpSessionId := none
        now := 0
        sessionTime := 3600 } := by
  exact c2_unverified_jwt_fail_closed
    { platformProbe := ProbeResult.ok none
      headersProbe := ProbeResult.ok (some [("authorization", "Bearer eyJabc.def.ghi")])
      authProvider := some (VerifyOutcome.workspaceTok
        ⟨"eyJabc.def.ghi", "cid", [], "sid", 0, [], none, some "x@y.com"⟩)
      transportMode := "streamable-http"
      requestedUser := none
      sessions := ⟨[]⟩
      mcpSessionId := none
      now := 0
      sessionTime := 3600 }
    [("authorization", "Bearer eyJabc.def.ghi")]
    "Bearer eyJabc.def.ghi"
    (fun t ht => by simp at ht) rfl rfl (by decide) (by decide)

/-- A platform probe that returned None finds nothing. -/
lemma platformStep_okNone :
    platformStep (ProbeResult.ok none) = (({} : CtxState), none, none) := rfl

/-- With no requested user and no single-session answer the stdio step
falls through. -/
lemma stdioStep_noRequested_noSingle (store : SessionStore) (st : CtxState)
    (u v : Option String) (hg : getSingleUserEmail store = none) :
    stdioStep none store st u v = (st, u, v) := by
  unfold stdioStep
  cases hpy : pyTruthy u <;> simp [hpy, hg]

/-- C3: on stdio transport with no platform token, no bearer token and no
explicit user, exactly one stored session resolves to that session with
source stdio_single_session, and any other session count never resolves
through this path. -/
theorem c3_single_session_boundary (inp : RequestInputs)
    (hplat : inp.platformProbe = ProbeResult.ok none)
    (hh : inp.headersProbe = ProbeResult.ok none)
    (ht : inp.transportMode = "stdio")
    (hr : inp.requestedUser = none) :
    (∀ r : SessionRecord, inp.sessions.records = [r] → r.userEmail ≠ "" →
      (processRequestForAuth inp).authenticatedUser = some r.userEmail ∧
      (processRequestForAuth inp).authVia = some "stdio_single_session" ∧
      (processRequestForAuth inp).state.authenticatedUserEmail = some r.userEmail ∧
      (processRequestForAuth inp).state.authenticatedVia = some "stdio_single_session") ∧
    (inp.sessions.records.length ≠ 1 →
      (processRequestForAuth inp).authVia ≠ some "stdio_single_session" ∧
      (processRequestForAuth inp).state.authenticatedVia ≠ some "stdio_single_session") := by
  constructor
  · intro r hrec hne
    have hgs : getSingleUserEmail inp.sessions = some r.userEmail := by
      simp [getSingleUserEmail, hrec]
    simp [processRequestForAuth, hplat, platformStep_okNone, hh, bearerStep_okNone,
          ht, hr, stdioStep, hgs, hne]
  · intro hlen
    have hgs : getSingleUserEmail inp.sessions = none :=
      getSingleUserEmail_of_ne_one _ hlen
    simp only [processRequestForAuth, hplat, platformStep_okNone, hh, bearerStep_okNone,
      ht, hr, pyTruthy_none, Bool.false_eq_true, if_false,
      stdioStep_noRequested_noSingle _ _ _ _ hgs]
    rcases mcpBindingStep_via_mem inp.mcpSessionId inp.sessions ({} : CtxState)
        none none with h3 | h3 <;>
      rcases mcpBindingStep_state_via_mem inp.mcpSessionId inp.sessions
          ({} : CtxState) none none with h4 | h4 <;>
        simp_all

/-- Witness for C3 with exactly one stored session and, separately, the
conclusion is consistent at that input for the second conjunct vacuously. -/
theorem c3_single_session_boundary_witness :
    (processRequestForAuth
      { platformProbe := ProbeResult.ok none
        headersProbe := ProbeResult.ok none
        authProvider := none
        transportMode := "stdio"
        requestedUser := none
        sessions := ⟨[⟨"key1", "solo@example.com", none⟩]⟩
        mcpSessionId := none
        now := 0
        sessionTime := 3600 }).authenticatedUser = some "solo@example.com" ∧
    (processRequestForAuth
      { platformProbe := ProbeResult.ok none
        headersProbe := ProbeResult.ok none
        authProvider := none
        transportMode := "stdio"
        requestedUser := none
        sessions := ⟨[⟨"key1", "solo@example.com", none⟩]⟩
        mcpSessionId := none
        now := 0
        sessionTime := 3600 }).authVia = some "stdio_single_session" := by
  have h := c3_single_session_boundary
    { platformProbe := ProbeResult.ok none
      headersProbe := ProbeResult.ok none
      authProvider := none
      transportMode := "stdio"
      requestedUser := none
      sessions := ⟨[⟨"key1", "solo@example.com", none⟩]⟩
      mcpSessionId := none
      now := 0
      sessionTime := 3600 } rfl rfl rfl rfl
  obtain ⟨h1, h2, _⟩ := h.1 ⟨"key1", "solo@example.com", none⟩ rfl (by decide)
  exact ⟨h1, h2⟩

/-- C4: on stdio transport, an explicitly named user without a stored
session does not suppress the single-session fallback: with exactly one
session belonging to a different user, resolution still lands on that
user with source stdio_single_session. -/
theorem c4_nonmatching_user_fallback (inp : RequestInputs) (u : String)
    (r : SessionRecord)
    (hplat : inp.platformProbe = ProbeResult.ok none)
    (hh : inp.headersProbe = ProbeResult.ok none)
    (ht : inp.transportMode = "stdio")
    (hr : inp.requestedUser = some u)
    (hu : u ≠ "")
    (hhs : hasSession inp.sessions u = false)
    (hrec : inp.sessions.records = [r])
    (hne : r.userEmail ≠ "") :
    (processRequestForAuth inp).authenticatedUser = some r.userEmail ∧
    (processRequestForAuth inp).authVia = some "stdio_single_session" ∧
    (processRequestForAuth inp).state.authenticatedVia = some "stdio_single_session" := by
  have hgs : getSingleUserEmail inp.sessions = some r.userEmail := by
    simp [getSingleUserEmail, hrec]
  simp [processRequestForAuth, hplat, platformStep_okNone, hh, bearerStep_okNone,
        ht, hr, stdioStep, hu, hhs, hgs, hne]

/-- Witness for C4: the call names missing@example.com, the only stored
session belongs to other@example.com, and resolution lands on the latter. -/
theorem c4_nonmatching_user_fallback_witness :
    (processRequestForAuth
      { platformProbe := ProbeResult.ok none
        headersProbe := ProbeResult.ok none
        authProvider := none
        transportMode := "stdio"
        requestedUser := some "missing@example.com"
        sessions := ⟨[⟨"key1", "other@example.com", none⟩]⟩
        mcpSessionId := none
        now := 0
        sessionTime := 3600 }).authenticatedUser = some "other@example.com" ∧
    (processRequestForAuth
      { platformProbe := ProbeResult.ok none
        headersProbe := ProbeResult.ok none
        authProvider := none
        transportMode := "stdio"
        requestedUser := some "missing@example.com"
        sessions := ⟨[⟨"key1", "other@example.com", none⟩]⟩
        mcpSessionId := none
        now := 0
        sessionTime := 3600 }).authVia = some "stdio_single_session" ∧
    (processRequestForAuth
      { platformProbe := ProbeResult.ok none
        headersProbe := ProbeResult.ok none
        authProvider := none
        transportMode := "stdio"
        requestedUser := some "missing@example.com"
        sessions := ⟨[⟨"key1", "other@example.com", none⟩]⟩
        mcpSessionId := none
        now := 0
        sessionTime := 3600 }).state.authenticatedVia = some "stdio_single_session" := by
  exact c4_nonmatching_user_fallback
    { platformProbe := ProbeResult.ok none
      headersProbe := ProbeResult.ok none
      authProvider := none
      transportMode := "stdio"
      requestedUser := some "missing@example.com"
      sessions := ⟨[⟨"key1", "other@example.com", none⟩]⟩
      mcpSessionId := none
      now := 0
      sessionTime := 3600 }
    "missing@example.com" ⟨"key1", "other@example.com", none⟩
    rfl rfl rfl rfl (by decide) (by decide) rfl (by decide)

/-- C5: a Bearer ya29 token whose userinfo lookup returns an object with
a non-empty email resolves with that email and source bearer_token, the
normalized WorkspaceAccessToken is placed in request state, and a session
record is written under the synthesized session key, bound to the
transport session id when one exists. -/
theorem c5_opaque_token_round_trip (inp : RequestInputs) (token cid : String)
    (scopes : List String) (info : List (String × String)) (e : String)
    (parent : VerifyOutcome)
    (hplat : inp.platformProbe = ProbeResult.ok none)
    (hh : inp.headersProbe = ProbeResult.ok (some [("authorization", "Bearer " ++ token)]))
    (hya : strStartsWith token "ya29." = true)
    (hap : inp.authProvider = some (externalVerifyToken cid scopes inp.now
      inp.sessionTime token (UserinfoOutcome.returns (some info)) parent))
    (he : dictGet info "email" = some e)
    (hne : e ≠ "") :
    (processRequestForAuth inp).authVia = some "bearer_token" ∧
    (processRequestForAuth inp).authenticatedUser = some e ∧
    (processRequestForAuth inp).state.authenticatedUserEmail = some e ∧
    (processRequestForAuth inp).state.authenticatedVia = some "bearer_token" ∧
    (processRequestForAuth inp).state.accessToken = some (StoredToken.workspace
      { token := token, clientId := cid, scopes := scopes
        sessionId := "google_oauth_" ++ strTake token 8
        expiresAt := inp.now + inp.sessionTime
        claims := [("email", some e), ("sub", dictGet info "id")]
        sub := dictGet info "id", email := some e }) ∧
    (processRequestForAuth inp).store = storeSession inp.sessions
      ⟨"google_oauth_" ++ strTake token 8, e, inp.mcpSessionId⟩ := by
  have hie : info.isEmpty = false := isEmpty_false_of_dictGet info "email" e he
  have hver : externalVerifyToken cid scopes inp.now inp.sessionTime token
      (UserinfoOutcome.returns (some info)) parent = VerifyOutcome.workspaceTok
      { token := token, clientId := cid, scopes := scopes
        sessionId := "google_oauth_" ++ strTake token 8
        expiresAt := inp.now + inp.sessionTime
        claims := [("email", some e), ("sub", dictGet info "id")]
        sub := dictGet info "id", email := some e } := by
    simp [externalVerifyToken, hya, hie, he, hne]
  have hdrop : strDrop ("Bearer " ++ token) 7 = token := strDrop_bearer token
  simp [processRequestForAuth, hplat, platformStep_okNone, hh, bearerStep, dictGet,
        strStartsWith_bearer, hdrop, hya, hap, hver, extractEmail, hne,
        finishBearer, ensureSessionFromAccessToken]

/-- Witness for C5: the specification's own example, a ya29 token whose
userinfo lookup returns email a@example.com and id 123. -/
theorem c5_opaque_token_round_trip_witness :
    (processRequestForAuth
      { platformProbe := ProbeResult.ok none
        headersProbe := ProbeResult.ok (some [("authorization", "Bearer ya29.abcdefgh123")])
        authProvider := some (externalVerifyToken "client-1" ["scope-a"] 100 3600
          "ya29.abcdefgh123"
          (UserinfoOutcome.returns (some [("email", "a@example.com"), ("id", "123")]))
          VerifyOutcome.noneResult)
        transportMode := "streamable-http"
        requestedUser := none
        sessions := ⟨[]⟩
        mcpSessionId := some "mcp-1"
        now := 100
        sessionTime := 3600 }).authVia = some "bearer_token" ∧
    (processRequestForAuth
      { platformProbe := ProbeResult.ok none
        headersProbe := ProbeResult.ok (some [("authorization", "Bearer ya29.abcdefgh123")])
        authProvider := some (externalVerifyToken "client-1" ["scope-a"] 100 3600
          "ya29.abcdefgh123"
          (UserinfoOutcome.returns (some [("email", "a@example.com"), ("id", "123")]))
          VerifyOutcome.noneResult)
        transportMode := "streamable-http"
        requestedUser := none
        sessions := ⟨[]⟩
        mcpSessionId := some "mcp-1"
        now := 100
        sessionTime := 3600 }).authenticatedUser = some "a@example.com" ∧
    (processRequestForAuth
      { platformProbe := ProbeResult.ok none
        headersProbe := ProbeResult.ok (some [("authorization", "Bearer ya29.abcdefgh123")])
        authProvider := some (externalVerifyToken "client-1" ["scope-a"] 100 3600
          "ya29.abcdefgh123"
          (UserinfoOutcome.returns (some [("email", "a@example.com"), ("id", "123")]))
          VerifyOutcome.noneResult)
        transportMode := "streamable-http"
        requestedUser := none
        sessions := ⟨[]⟩
        mcpSessionId := some "mcp-1"
        now := 100
        sessionTime := 3600 }).state.accessToken = some (StoredToken.workspace
      { token := "ya29.abcdefgh123", clientId := "client-1", scopes := ["scope-a"]
        sessionId := "google_oauth_ya29.abc"
        expiresAt := 3700
        claims := [("email", some "a@example.com"), ("sub", some "123")]
        sub := some "123", email := some "a@example.com" }) ∧
    (processRequestForAuth
      { platformProbe := ProbeResult.ok none
        headersProbe := ProbeResult.ok (some [("authorization", "Bearer ya29.abcdefgh123")])
        authProvider := some (externalVerifyToken "client-1" ["scope-a"] 100 3600
          "ya29.abcdefgh123"
          (UserinfoOutcome.returns (some [("email", "a@example.com"), ("id", "123")]))
          VerifyOutcome.noneResult)
        transportMode := "streamable-http"
        requestedUser := none
        sessions := ⟨[]⟩
        mcpSessionId := some "mcp-1"
        now := 100
        sessionTime := 3600 }).store =
      ⟨[⟨"google_oauth_ya29.abc", "a@example.com", some "mcp-1"⟩]⟩ := by
  have h := c5_opaque_token_round_trip
    { platformProbe := ProbeResult.ok none
      headersProbe := ProbeResult.ok (some [("authorization", "Bearer ya29.abcdefgh123")])
      authProvider := some (externalVerifyToken "client-1" ["scope-a"] 100 3600
        "ya29.abcdefgh123"
        (UserinfoOutcome.returns (some [("email", "a@example.com"), ("id", "123")]))
        VerifyOutcome.noneResult)
      transportMode := "streamable-http"
      requestedUser := none
      sessions := ⟨[]⟩
      mcpSessionId := some "mcp-1"
      now := 100
      sessionTime := 3600 }
    "ya29.abcdefgh123" "client-1" ["scope-a"]
    [("email", "a@example.com"), ("id", "123")] "a@example.com"
    VerifyOutcome.noneResult
    rfl (by decide) (by decide) rfl (by decide) (by decide)
  exact ⟨h.1, h.2.1, h.2.2.2.2.1, h.2.2.2.2.2⟩

/-- A platform probe that raised finds nothing. -/
lemma platformStep_raises :
    platformStep ProbeResult.raises = (({} : CtxState), none, none) := rfl

/-- A bearer step whose header probe raised leaves everything untouched. -/
lemma bearerStep_raisesProbe (ap : Option VerifyOutcome) (n t : Int)
    (sid : Option String) (s : SessionStore) (st : CtxState)
    (u v : Option String) :
    bearerStep ProbeResult.raises ap n t sid s st u v = (st, s, u, v) := rfl

/-- C6: every exception raised while probing a single precedence step is
contained: a raising platform probe, header probe or verify_token call
behaves exactly like that step finding nothing, the chain continues to
the later steps, never produces a bearer resolution from the raising
step, and on a request where every probe raises it terminates Unresolved. -/
theorem c6_exception_containment (inp : RequestInputs) :
    processRequestForAuth { inp with platformProbe := ProbeResult.raises } =
      processRequestForAuth { inp with platformProbe := ProbeResult.ok none } ∧
    processRequestForAuth { inp with headersProbe := ProbeResult.raises } =
      processRequestForAuth { inp with headersProbe := ProbeResult.ok none } ∧
    processRequestForAuth { inp with authProvider := some VerifyOutcome.raises } =
      processRequestForAuth { inp with authProvider := some VerifyOutcome.noneResult } ∧
    (processRequestForAuth { inp with authProvider := some VerifyOutcome.raises }).authVia ≠
      some "bearer_token" ∧
    (processRequestForAuth
      { platformProbe := ProbeResult.raises
        headersProbe := ProbeResult.raises
        authProvider := some VerifyOutcome.raises
        transportMode := "stdio"
        requestedUser := none
        sessions := ⟨[]⟩
        mcpSessionId := none
        now := 0
        sessionTime := 3600 }).authVia = none := by
  refine ⟨?_, ?_, ?_, ?_, by decide⟩
  · simp [processRequestForAuth, platformStep_raises, platformStep_okNone]
  · simp [processRequestForAuth, bearerStep_raisesProbe, bearerStep_okNone]
  · simp [processRequestForAuth, bearerStep_raises_fallthrough,
      bearerStep_none_fallthrough]
  · have hb : ∀ st u v,
        bearerStep ({ inp with authProvider := some VerifyOutcome.raises } :
            RequestInputs).headersProbe
          ({ inp with authProvider := some VerifyOutcome.raises } :
            RequestInputs).authProvider
          ({ inp with authProvider := some VerifyOutcome.raises } :
            RequestInputs).now
          ({ inp with authProvider := some VerifyOutcome.raises } :
            RequestInputs).sessionTime
          ({ inp with authProvider := some VerifyOutcome.raises } :
            RequestInputs).mcpSessionId
          ({ inp with authProvider := some VerifyOutcome.raises } :
            RequestInputs).sessions st u v =
        (st, ({ inp with authProvider := some VerifyOutcome.raises } :
            RequestInputs).sessions, u, v) := by
      intro st u v
      exact bearerStep_raises_fallthrough _ _ _ _ _ _ _ _
    exact (process_resolution_ne_bearer _ hb).1

/-- Witness instantiating C6 at a concrete request. -/
theorem c6_exception_containment_witness :
    processRequestForAuth
      { platformProbe := ProbeResult.raises
        headersProbe := ProbeResult.ok (some [("authorization", "Bearer ya29.q")])
        authProvider := some VerifyOutcome.raises
        transportMode := "stdio"
        requestedUser := none
        sessions := ⟨[⟨"k", "w@x.com", some "m1"⟩]⟩
        mcpSessionId := some "m1"
        now := 0
        sessionTime := 3600 } =
    processRequestForAuth
      { platformProbe := ProbeResult.ok none
        headersProbe := ProbeResult.ok (some [("authorization", "Bearer ya29.q")])
        authProvider := some VerifyOutcome.raises
        transportMode := "stdio"
        requestedUser := none
        sessions := ⟨[⟨"k", "w@x.com", some "m1"⟩]⟩
        mcpSessionId := some "m1"
        now := 0
        sessionTime := 3600 } ∧
    (processRequestForAuth
      { platformProbe := ProbeResult.ok none
        headersProbe := ProbeResult.ok (some [("authorization", "Bearer ya29.q")])
        authProvider := some VerifyOutcome.raises
        transportMode := "stdio"
        requestedUser := none
        sessions := ⟨[⟨"k", "w@x.com", some "m1"⟩]⟩
        mcpSessionId := some "m1"
        now := 0
        sessionTime := 3600 }).authVia ≠ some "bearer_token" := by
  have h := c6_exception_containment
    { platformProbe := ProbeResult.ok none
      headersProbe := ProbeResult.ok (some [("authorization", "Bearer ya29.q")])
      authProvider := some VerifyOutcome.raises
      transportMode := "stdio"
      requestedUser := none
      sessions := ⟨[⟨"k", "w@x.com", some "m1"⟩]⟩
      mcpSessionId := some "m1"
      now := 0
      sessionTime := 3600 }
  exact ⟨h.1, h.2.2.2.1⟩

/-- C7: a ya29 token whose verification response lacks a non-empty email,
or whose userinfo call fails, makes verify_token return None rather than
any partially-populated token, and a middleware run whose provider
returned None never carries a bearer_token resolution, neither in the
outcome nor in the written state. -/
theorem c7_missing_email_fail_closed (cid : String) (scopes : List String)
    (now sessionTime : Int) (token : String) (uo : UserinfoOutcome)
    (parent : VerifyOutcome)
    (hya : strStartsWith token "ya29." = true)
    (hno : userinfoLacksEmail uo = true) :
    externalVerifyToken cid scopes now sessionTime token uo parent =
      VerifyOutcome.noneResult ∧
    ∀ inp : RequestInputs,
      inp.authProvider = some VerifyOutcome.noneResult →
      (processRequestForAuth inp).authVia ≠ some "bearer_token" ∧
      (processRequestForAuth inp).state.authenticatedVia ≠ some "bearer_token" := by
  constructor
  · cases uo with
    | raises => simp [externalVerifyToken, hya]
    | returns oi =>
        cases oi with
        | none => simp [externalVerifyToken, hya]
        | some info =>
            simp only [userinfoLacksEmail, Bool.or_eq_true] at hno
            rcases hno with hie | hmail
            · simp [externalVerifyToken, hya, hie]
            · cases hm : dictGet info "email" with
              | none => simp [externalVerifyToken, hya, hm]
              | some e =>
                  have he : e = "" := by
                    rw [hm] at hmail
                    simpa using hmail
                  by_cases hie : info.isEmpty = true
                  · simp [externalVerifyToken, hya, hie]
                  · simp [externalVerifyToken, hya, hie, hm, he]
  · intro inp hap
    have hb : ∀ st u v,
        bearerStep inp.headersProbe inp.authProvider inp.now inp.sessionTime
          inp.mcpSessionId inp.sessions st u v = (st, inp.sessions, u, v) := by
      intro st u v
      rw [hap]
      exact bearerStep_none_fallthrough _ _ _ _ _ _ _ _
    exact process_resolution_ne_bearer inp hb

/-- Witness for C7 at a userinfo response carrying an id but no email. -/
theorem c7_missing_email_fail_closed_witness :
    externalVerifyToken "client-1" [] 0 3600 "ya29.tok"
      (UserinfoOutcome.returns (some [("id", "123")])) VerifyOutcome.raises =
      VerifyOutcome.noneResult ∧
    (processRequestForAuth
      { platformProbe := ProbeResult.ok none
        headersProbe := ProbeResult.ok (some [("authorization", "Bearer ya29.tok")])
        authProvider := some VerifyOutcome.noneResult
        transportMode := "streamable-http"
        requestedUser := none
        sessions := ⟨[]⟩
        mcpSessionId := none
        now := 0
        sessionTime := 3600 }).authVia ≠ some "bearer_token" := by
  have h := c7_missing_email_fail_closed "client-1" [] 0 3600 "ya29.tok"
    (UserinfoOutcome.returns (some [("id", "123")])) VerifyOutcome.raises
    (by decide) (by decide)
  exact ⟨h.1, (h.2
    { platformProbe := ProbeResult.ok none
      headersProbe := ProbeResult.ok (some [("authorization", "Bearer ya29.tok")])
      authProvider := some VerifyOutcome.noneResult
      transportMode := "streamable-http"
      requestedUser := none
      sessions := ⟨[]⟩
      mcpSessionId := none
      now := 0
      sessionTime := 3600 } rfl).1⟩

/-- Counterexample for C8 as stated: with OAuth 2.1 enabled, credentials
configured, and a provider initialization body that raises, the input is
misconfigured in the sense of the specification's configuration-failure
taxonomy, yet configure_server_for_http re-raises instead of completing
with a legacy fallback. -/
theorem c8_counterexample :
    oauth21ProviderMisconfigured
      ⟨"streamable-http", true, true, false,
        Except.error "provider initialization failed"⟩ = true ∧
    completesWithoutRaising (configure_server_for_http
      ⟨"streamable-http", true, true, false,
        Except.error "provider initialization failed"⟩) = false := by
  decide

/-- C8 amended: with OAuth 2.1 enabled but credentials not configured,
configure_server_for_http warns and returns without raising and without
enabling protocol auth; with OAuth 2.1 disabled it falls back to the
legacy configuration without raising; but an exception raised inside the
provider initialization body is logged and re-raised, so a misconfigured
provider whose initialization raises terminates the configuration pass
with that exception. -/
theorem c8_fallback_amended (i : ConfigureInputs)
    (htm : i.transportMode = "streamable-http") :
    (i.oauth21Enabled = true → i.isConfigured = false →
      configure_server_for_http i = Except.ok { warnedNotConfigured := true }) ∧
    (i.oauth21Enabled = false →
      configure_server_for_http i = Except.ok { legacyCallbackRegistered := true }) ∧
    (∀ e : String, i.oauth21Enabled = true → i.isConfigured = true →
      i.bodyInit = Except.error e →
      configure_server_for_http i = Except.error e) := by
  refine ⟨?_, ?_, ?_⟩ <;> intros <;> simp_all [configure_server_for_http]

/-- Witness for the amended C8 at concrete not-configured and disabled
inputs. -/
theorem c8_fallback_amended_witness :
    configure_server_for_http
      ⟨"streamable-http", true, false, false, Except.ok ()⟩ =
      Except.ok { warnedNotConfigured := true } ∧
    configure_server_for_http
      ⟨"streamable-http", false, false, false, Except.ok ()⟩ =
      Except.ok { legacyCallbackRegistered := true } ∧
    configure_server_for_http
      ⟨"streamable-http", true, true, false, Except.error "boom"⟩ =
      Except.error "boom" := by
  have h1 := c8_fallback_amended
    ⟨"streamable-http", true, false, false, Except.ok ()⟩ rfl
  have h2 := c8_fallback_amended
    ⟨"streamable-http", false, false, false, Except.ok ()⟩ rfl
  have h3 := c8_fallback_amended
    ⟨"streamable-http", true, true, false, Except.error "boom"⟩ rfl
  exact ⟨h1.1 rfl rfl, h2.2.1 rfl, h3.2.2 "boom" rfl rfl rfl⟩

/-- Persisting a token with a falsy email writes nothing. -/
lemma ensureSession_falsy (s : SessionStore) (tok : WorkspaceAccessToken)
    (mcpSid : Option String) (ue : Option String) (h : pyTruthy ue = false) :
    ensureSessionFromAccessToken s tok ue mcpSid = s := by
  cases ue with
  | none => rfl
  | some e =>
      have he : e = "" := by simpa [pyTruthy] using h
      simp [ensureSessionFromAccessToken, he]

/-- The context state and the user and source outputs of the bearer step
do not depend on the session store contents; only the store output does. -/
lemma bearerStep_indep (hp : ProbeResult (List (String × String)))
    (ap : Option VerifyOutcome) (n t : Int) (sid : Option String)
    (s s' : SessionStore) (st : CtxState) (u v : Option String) :
    (bearerStep hp ap n t sid s st u v).1 =
      (bearerStep hp ap n t sid s' st u v).1 ∧
    (bearerStep hp ap n t sid s st u v).2.2 =
      (bearerStep hp ap n t sid s' st u v).2.2 := by
  cases hp with
  | raises => exact ⟨rfl, rfl⟩
  | ok o =>
      cases o with
      | none => exact ⟨rfl, rfl⟩
      | some headers =>
          unfold bearerStep
          by_cases hie : headers.isEmpty = true
          · simp [hie]
          · by_cases hbear : strStartsWith
                ((dictGet headers "authorization").getD "") "Bearer " = true
            · by_cases hya : strStartsWith
                  (strDrop ((dictGet headers "authorization").getD "") 7) "ya29." = true
              · cases ap with
                | none => simp [hie, hbear, hya]
                | some vres => cases vres <;> simp [hie, hbear, hya, finishBearer]
              · simp [hie, hbear, hya]
            · simp [hie, hbear]

/-- A bearer step that did not produce a truthy user leaves the session
store unchanged: the only write is guarded by a truthy email. -/
lemma bearerStep_store_of_not_truthy (hp : ProbeResult (List (String × String)))
    (ap : Option VerifyOutcome) (n t : Int) (sid : Option String)
    (s : SessionStore) (st : CtxState) (u v : Option String)
    (hu : pyTruthy u = false)
    (h : pyTruthy ((bearerStep hp ap n t sid s st u v).2.2.1) = false) :
    (bearerStep hp ap n t sid s st u v).2.1 = s := by
  cases hp with
  | raises => rfl
  | ok o =>
      cases o with
      | none => rfl
      | some headers =>
          unfold bearerStep at h ⊢
          by_cases hie : headers.isEmpty = true
          · simp [hie]
          · by_cases hbear : strStartsWith
                ((dictGet headers "authorization").getD "") "Bearer " = true
            · by_cases hya : strStartsWith
                  (strDrop ((dictGet headers "authorization").getD "") 7) "ya29." = true
              · cases ap with
                | none => simp [hie, hbear, hya]
                | some vres =>
                    cases vres with
                    | raises => simp [hie, hbear, hya]
                    | noneResult => simp [hie, hbear, hya]
                    | workspaceTok tk =>
                        simp only [hie, hbear, hya, Bool.false_eq_true, if_false,
                          if_true, finishBearer] at h ⊢
                        exact ensureSession_falsy s tk sid _ h
                    | baseTok b =>
                        simp only [hie, hbear, hya, Bool.false_eq_true, if_false,
                          if_true, finishBearer] at h ⊢
                        exact ensureSession_falsy s _ sid _ h
              · simp [hie, hbear, hya]
            · simp [hie, hbear]

/-- C9: running the resolution chain a second time on the same request
inputs, against the session store left behind by the first run, yields
the same resolved identity and the same source tag; with the store also
unchanged the second run is literally the same computation, so the claim
on identical inputs follows a fortiori. -/
theorem c9_resolution_idempotent (inp : RequestInputs) :
    (processRequestForAuth
      { inp with sessions := (processRequestForAuth inp).store }).authenticatedUser =
      (processRequestForAuth inp).authenticatedUser ∧
    (processRequestForAuth
      { inp with sessions := (processRequestForAuth inp).store }).authVia =
      (processRequestForAuth inp).authVia := by
  cases hpt : pyTruthy (platformStep inp.platformProbe).2.1 with
  | true =>
      have hstore : (processRequestForAuth inp).store = inp.sessions := by
        simp [processRequestForAuth, hpt]
      have heq : ({ inp with sessions := (processRequestForAuth inp).store } :
          RequestInputs) = inp := by
        rw [hstore]
      rw [heq]
      exact ⟨rfl, rfl⟩
  | false =>
      have hplat0 := platformStep_of_not_truthy inp.platformProbe hpt
      cases hbt : pyTruthy (bearerStep inp.headersProbe inp.authProvider inp.now
          inp.sessionTime inp.mcpSessionId inp.sessions ({} : CtxState)
          none none).2.2.1 with
      | false =>
          have hsfall := bearerStep_store_of_not_truthy inp.headersProbe
            inp.authProvider inp.now inp.sessionTime inp.mcpSessionId inp.sessions
            ({} : CtxState) none none rfl hbt
          have hstore : (processRequestForAuth inp).store = inp.sessions := by
            simp [processRequestForAuth, hplat0, hsfall]
          have heq : ({ inp with sessions := (processRequestForAuth inp).store } :
              RequestInputs) = inp := by
            rw [hstore]
          rw [heq]
          exact ⟨rfl, rfl⟩
      | true =>
          generalize hS : (processRequestForAuth inp).store = S
          have hind := bearerStep_indep inp.headersProbe inp.authProvider inp.now
            inp.sessionTime inp.mcpSessionId inp.sessions S ({} : CtxState) none none
          have hbt2 : pyTruthy (bearerStep inp.headersProbe inp.authProvider inp.now
              inp.sessionTime inp.mcpSessionId S
              ({} : CtxState) none none).2.2.1 = true := by
            rw [← congrArg Prod.fst hind.2]
            exact hbt
          have h1u : (processRequestForAuth inp).authenticatedUser =
              (bearerStep inp.headersProbe inp.authProvider inp.now inp.sessionTime
                inp.mcpSessionId inp.sessions ({} : CtxState) none none).2.2.1 := by
            simp [processRequestForAuth, hplat0, hbt]
          have h1v : (processRequestForAuth inp).authVia =
              (bearerStep inp.headersProbe inp.authProvider inp.now inp.sessionTime
                inp.mcpSessionId inp.sessions ({} : CtxState) none none).2.2.2 := by
            simp [processRequestForAuth, hplat0, hbt]
          have h2u : (processRequestForAuth
              { inp with sessions := S }).authenticatedUser =
              (bearerStep inp.headersProbe inp.authProvider inp.now inp.sessionTime
                inp.mcpSessionId S ({} : CtxState) none none).2.2.1 := by
            simp [processRequestForAuth, hplat0, hbt2]
          have h2v : (processRequestForAuth
              { inp with sessions := S }).authVia =
              (bearerStep inp.headersProbe inp.authProvider inp.now inp.sessionTime
                inp.mcpSessionId S ({} : CtxState) none none).2.2.2 := by
            simp [processRequestForAuth, hplat0, hbt2]
          constructor
          · rw [h1u, h2u, ← congrArg Prod.fst hind.2]
          · rw [h1v, h2v, ← congrArg Prod.snd hind.2]

/-- C10: for every SESSION_TIME environment value the derived session
lifetime is an integer in the interval from 1 to 86400 seconds; an unset
or non-integer value yields the default 3600, and a parsed integer is
clamped to the interval. The lru_cache on the source derives the value
once; the embedding is a pure function of the single environment read,
so the value is constant for a fixed environment. -/
theorem c10_session_time_bounded (raw : String) :
    1 ≤ get_session_time raw ∧ get_session_time raw ≤ 86400 ∧
    get_session_time "" = 3600 ∧
    (pyParseInt raw = none → get_session_time raw = 3600) ∧
    (∀ v : Int, pyParseInt raw = some v → raw ≠ "" →
      get_session_time raw = max 1 (min v 86400)) := by
  refine ⟨?_, ?_, rfl, ?_, ?_⟩
  · by_cases h : (raw == "") = true
    · simp [get_session_time, h, _DEFAULT_SESSION_TIME]
    · cases hp : pyParseInt raw with
      | none => simp [get_session_time, h, hp, _DEFAULT_SESSION_TIME]
      | some v =>
          simp only [get_session_time, h, Bool.false_eq_true, if_false, hp]
          exact le_max_left _ _
  · by_cases h : (raw == "") = true
    · simp [get_session_time, h, _DEFAULT_SESSION_TIME]
    · cases hp : pyParseInt raw with
      | none => simp [get_session_time, h, hp, _DEFAULT_SESSION_TIME]
      | some v =>
          simp only [get_session_time, h, Bool.false_eq_true, if_false, hp,
            _MAX_SESSION_TIME]
          exact max_le (by norm_num) (min_le_right _ _)
  · intro hp
    by_cases h : (raw == "") = true
    · simp [get_session_time, h, _DEFAULT_SESSION_TIME]
    · simp [get_session_time, h, hp, _DEFAULT_SESSION_TIME]
  · intro v hp hraw
    have h : (raw == "") = false := by simp [hraw]
    simp [get_session_time, h, hp, _MAX_SESSION_TIME]

/-- Witness for C10: an over-range value clamps to 86400, a negative
value clamps to 1, a non-integer value falls back to 3600. -/
theorem c10_session_time_bounded_witness :
    1 ≤ get_session_time "90000" ∧ get_session_time "90000" ≤ 86400 ∧
    get_session_time "" = 3600 ∧ get_session_time "abc" = 3600 ∧
    get_session_time "90000" = 86400 ∧ get_session_time "-7" = 1 := by
  have h1 := c10_session_time_bounded "90000"
  have h2 := c10_session_time_bounded "abc"
  have h3 := c10_session_time_bounded "-7"
  refine ⟨h1.1, h1.2.1, h1.2.2.1, h2.2.2.2.1 (by decide), ?_, ?_⟩
  · have h4 := h1.2.2.2.2 90000 (by decide) (by decide)
    rw [h4]; decide
  · have h5 := h3.2.2.2.2 (-7) (by decide) (by decide)
    rw [h5]; decide
